import Mathlib

/-!
Shallow embedding of the serve orchestration flow of
`src/packages/@ionic/cli-utils/src/commands/serve.ts` and of the
project-bootstrap helper `isProjectNameValid` of
`src/packages/@ionic/cli-utils/src/lib/start.ts` (vellengs/ionic-cli).

Raw command-line option values are JavaScript values (string, boolean or
number); an option mapping sends an option name to such a value or to
`undefined` (modelled as `none`).  JavaScript truthiness and `String(...)`
conversion are modelled explicitly.  `chalk.bold` only wraps a string in
terminal styling codes (and is the identity when styling is disabled); it is
modelled as the identity on strings, so formatted messages are the plain
text the user reads.

Asynchronous effects of `serve` (firing the backend adapter, publishing the
DevApp discovery service, logging, opening the browser) are recorded in an
explicit `ServeTrace`; the external collaborators (the two backend adapters,
the discovery service's `start`) are parameters of the environment `Env`.
-/

namespace IonicCLI

/-- A raw command-line option value as JavaScript sees it. -/
inductive CLIValue where
  | str (s : String)
  | bool (b : Bool)
  | num (n : Int)
deriving DecidableEq, Repr

/-- JavaScript truthiness of a raw option value. -/
def CLIValue.truthy : CLIValue → Bool
  | .str s => s != ""
  | .bool b => b
  | .num n => n != 0

/-- JavaScript `String(...)` conversion of a raw option value. -/
def CLIValue.jsString : CLIValue → String
  | .str s => s
  | .bool b => if b then "true" else "false"
  | .num n => toString n

/-- `CommandLineOptions`: a mapping from option name to a possibly absent
raw value (`undefined` is `none`). -/
def CommandLineOptions := String → Option CLIValue

/-- Truthiness of a possibly absent option value (`undefined` is falsy). -/
def optTruthy (v : Option CLIValue) : Bool :=
  match v with
  | some x => x.truthy
  | none => false

/-- Modelled from the spec: the "bind all interfaces" sentinel address
`BIND_ALL_ADDRESS` from `../lib/serve`, which is not under `src/`. -/
def BIND_ALL_ADDRESS : String := "0.0.0.0"

/-- Modelled from the spec: the default server port constant from
`../lib/serve`, which is not under `src/`. -/
def DEFAULT_SERVER_PORT : Int := 8100

/-- Modelled from the spec: the default live-reload port constant from
`../lib/serve`, which is not under `src/`. -/
def DEFAULT_LIVERELOAD_PORT : Int := 35729

/-- Modelled from the spec: the default dev-logger/notification port
constant from `../lib/serve`, which is not under `src/`. -/
def DEFAULT_DEV_LOGGER_PORT : Int := 53703

/-- Modelled from the spec: the fixed "lab" URL constant `IONIC_LAB_URL`
from `../lib/serve`, which is not under `src/`. -/
def IONIC_LAB_URL : String := "/ionic-lab"

/-- Modelled from the spec: `str2num` from
`@ionic/cli-framework/utils/string`, which is not under `src/`: parse the
given value as a base-10 integer; on absence or parse failure, use the
provided default. -/
def str2num (v : Option CLIValue) (dflt : Int) : Int :=
  match v with
  | none => dflt
  | some (.num n) => n
  | some (.str s) => (s.toInt?).getD dflt
  | some (.bool _) => dflt

/-- The canonical serve configuration produced by `cliOptionsToServeOptions`
(the spec's `ServeConfig`). -/
structure ServeOptions where
  address : String
  port : Int
  livereloadPort : Int
  notificationPort : Int
  consolelogs : Bool
  serverlogs : Bool
  livereload : Bool
  proxy : Bool
  lab : Bool
  «open» : Bool
  browser : Option String
  browserOption : Option String
  basicAuth : Option (String × String)
  env : Option String
  devapp : Bool
  externalAddressRequired : Bool
  iscordovaserve : Bool
deriving DecidableEq, Repr

/-- `cliOptionsToServeOptions` of `commands/serve.ts`: normalize raw,
loosely-typed options into a `ServeOptions` value. -/
def cliOptionsToServeOptions (options : CommandLineOptions) : ServeOptions :=
  { address :=
      match options "address" with
      | some v => if v.truthy then v.jsString else BIND_ALL_ADDRESS
      | none => BIND_ALL_ADDRESS
    port := str2num (options "port") DEFAULT_SERVER_PORT
    livereloadPort := str2num (options "livereload-port") DEFAULT_LIVERELOAD_PORT
    notificationPort := str2num (options "dev-logger-port") DEFAULT_DEV_LOGGER_PORT
    consolelogs := optTruthy (options "consolelogs")
    serverlogs := optTruthy (options "serverlogs")
    livereload :=
      match options "livereload" with
      | some (.bool b) => b
      | _ => true
    proxy :=
      match options "proxy" with
      | some (.bool b) => b
      | _ => true
    lab := optTruthy (options "lab")
    «open» := optTruthy (options "open")
    browser :=
      match options "browser" with
      | some v => if v.truthy then some v.jsString else none
      | none => none
    browserOption :=
      match options "browseroption" with
      | some v => if v.truthy then some v.jsString else none
      | none => none
    basicAuth :=
      match options "auth" with
      | some v => if v.truthy then some ("ionic", v.jsString) else none
      | none => none
    env :=
      match options "env" with
      | some v => if v.truthy then some v.jsString else none
      | none => none
    devapp :=
      match options "devapp" with
      | none => true
      | some v => v.truthy
    externalAddressRequired := optTruthy (options "externalAddressRequired")
    iscordovaserve :=
      match options "iscordovaserve" with
      | some (.bool b) => b
      | _ => false }

/-- `ServeDetails`: what a backend adapter reports (bound port and external
addresses). -/
structure ServeDetails where
  port : Int
  externalAddresses : List String
deriving DecidableEq, Repr

/-- The loaded project metadata used by `serve` (`env.project.load()`). -/
structure Project where
  type : String
  name : String
deriving DecidableEq, Repr

/-- The options passed to the ionic-angular backend adapter:
`{ platform, target, ...serveOptions }`. -/
structure AngularServeOptions where
  platform : Option String
  target : Option String
  base : ServeOptions
deriving DecidableEq, Repr

/-- Which backend adapter a serve session invoked. -/
inductive AdapterKind where
  | ionic1
  | ionicAngular
deriving DecidableEq, Repr

/-- The `@ionic/discover` `Publisher` descriptor as configured by `serve`
before `start()` is called (the spec's `DiscoveryServiceDescriptor`). -/
structure Publisher where
  family : String
  instName : String
  port : Int
  path : String
deriving DecidableEq, Repr

/-- One call to the browser launcher `opn(url, { app, wait })`. -/
structure OpenCall where
  url : String
  app : Option String
  wait : Bool
deriving DecidableEq, Repr

/-- The observable effects of one serve session. -/
structure ServeTrace where
  adapterInvoked : Option AdapterKind
  discoveryStarted : Option Publisher
  reportText : Option String
  browserOpen : Option OpenCall
deriving DecidableEq, Repr

/-- The environment of a serve session: the loaded project and the external
collaborators (backend adapters; whether `Publisher.start()` fails). -/
structure Env where
  project : Project
  ionic1Serve : ServeOptions → ServeDetails
  ionicAngularServe : AngularServeOptions → ServeDetails
  discoveryStartFails : Bool

/-- The `FatalException` message thrown by `serve` for an unsupported
project type (with `chalk.bold` as the identity). -/
def fatalServeMessage (t : String) : String :=
  "Cannot perform Ionic serve/watch for project type: " ++ t ++ ".\n" ++
  (if t = "custom" then
     "Since you're using the custom project type, this command won't work. The Ionic CLI doesn't know how to serve custom projects.\n\n"
   else "") ++
  "If you'd like the CLI to try to detect your project type, you can unset the type attribute in ionic.config.json.\n"

/-- `http://{address}:{port}` for an external address (serve.ts's
`fmtExternalAddress`). -/
def fmtExternalAddress (port : Int) (address : String) : String :=
  "http://" ++ address ++ ":" ++ toString port

/-- The text passed to `env.log.ok` by `serve` (with `chalk.bold` as the
identity). -/
def reportMessage (serverDetails : ServeDetails) (serveOptions : ServeOptions) : String :=
  "Development server running!\n" ++
  ("Local: " ++ ("http://localhost:" ++ toString serverDetails.port) ++ "\n") ++
  (if serverDetails.externalAddresses.length > 0 then
     "External: " ++
       String.intercalate ", "
         (serverDetails.externalAddresses.map (fmtExternalAddress serverDetails.port)) ++
       "\n"
   else "") ++
  (match serveOptions.basicAuth with
   | some auth => "Basic Auth: " ++ auth.1 ++ " / " ++ auth.2
   | none => "")

/-- The string `opn` is called with: `openOptions.join('')` where
`openOptions` is built from the local address, the lab URL, the browser
option and the platform input exactly as in serve.ts. -/
def openOptionsJoined (localAddress : String) (serveOptions : ServeOptions)
    (platform : Option String) : String :=
  String.join ([localAddress]
    ++ (if serveOptions.lab then [IONIC_LAB_URL] else [])
    ++ (match serveOptions.browserOption with
        | some b => if b != "" then [b] else []
        | none => [])
    ++ (match platform with
        | some p => if p != "" then ["?ionicplatform=", p] else []
        | none => []))

/-- The `serve` orchestration of `commands/serve.ts`: normalize options,
dispatch on the project type, publish the DevApp discovery service
(failures swallowed), report addresses, optionally open the browser, and
return the adapter's `ServeDetails`.  The result is the value returned (or
the `FatalException` message thrown), paired with the session's trace. -/
def serve (env : Env) (inputs : List String) (options : CommandLineOptions) :
    Except String ServeDetails × ServeTrace :=
  let platform := inputs.head?
  let serveOptions := cliOptionsToServeOptions options
  let project := env.project
  let dispatched : Option (AdapterKind × ServeDetails) :=
    if project.type = "ionic1" then
      some (AdapterKind.ionic1, env.ionic1Serve serveOptions)
    else if project.type = "ionic-angular" then
      some (AdapterKind.ionicAngular, env.ionicAngularServe
        { platform := platform
          target := if serveOptions.iscordovaserve then some "cordova" else none
          base := serveOptions })
    else
      none
  match dispatched with
  | none =>
      (Except.error (fatalServeMessage project.type),
       { adapterInvoked := none, discoveryStarted := none,
         reportText := none, browserOpen := none })
  | some (kind, serverDetails) =>
      let devAppActive := !serveOptions.iscordovaserve && serveOptions.devapp
      let devAppServiceName := project.name ++ "@" ++ toString serveOptions.port
      let service : Option Publisher :=
        if devAppActive then
          some { family := "devapp", instName := devAppServiceName,
                 port := serveOptions.port, path := "/?devapp=true" }
        else none
      -- `service.start()` is wrapped in try/catch: its outcome is discarded.
      let _startOutcome : Except String Unit :=
        if devAppActive && env.discoveryStartFails then
          Except.error "Could not publish DevApp service"
        else Except.ok ()
      let localAddress := "http://localhost:" ++ toString serverDetails.port
      let report := reportMessage serverDetails serveOptions
      let browserOpen : Option OpenCall :=
        if project.type ≠ "ionic-angular" then
          if serveOptions.«open» then
            some { url := openOptionsJoined localAddress serveOptions platform,
                   app := serveOptions.browser, wait := false }
          else none
        else none
      (Except.ok serverDetails,
       { adapterInvoked := some kind, discoveryStarted := service,
         reportText := some report, browserOpen := browserOpen })

/-- `isProjectNameValid` of `lib/start.ts`: a project name is valid exactly
when it is not the string consisting of a single dot. -/
def isProjectNameValid (name : String) : Bool :=
  name != "."

/-- A string `t` occurs as a substring of `s`. -/
def ContainsStr (s t : String) : Prop :=
  ∃ a b, s = a ++ t ++ b

/-- The empty option mapping. -/
def emptyOpts : CommandLineOptions := fun _ => none

/-- An adapter that reports port 8100 and no external addresses. -/
def adapter8100 : ServeOptions → ServeDetails :=
  fun _ => { port := 8100, externalAddresses := [] }

/-- An ionic-angular adapter that reports port 8100 and no external
addresses. -/
def adapterA8100 : AngularServeOptions → ServeDetails :=
  fun _ => { port := 8100, externalAddresses := [] }

/-- A concrete environment with an `ionic1` project. -/
def env1 : Env :=
  { project := { type := "ionic1", name := "proj" }
    ionic1Serve := adapter8100
    ionicAngularServe := adapterA8100
    discoveryStartFails := false }

/-- A concrete environment whose project type is `custom`. -/
def envCustom : Env :=
  { project := { type := "custom", name := "proj" }
    ionic1Serve := adapter8100
    ionicAngularServe := adapterA8100
    discoveryStartFails := false }

/-- Options with `open`, `lab` and a `browseroption` set. -/
def openLabOpts : CommandLineOptions := fun k =>
  if k = "open" then some (.bool true)
  else if k = "lab" then some (.bool true)
  else if k = "browseroption" then some (.str "--incognito")
  else none

/-- The discovery descriptor `serve` builds in `env1` with default
options. -/
def svc0 : Publisher :=
  { family := "devapp", instName := "proj@8100", port := 8100, path := "/?devapp=true" }

/-- An adapter that reports port 8100 and one external address. -/
def adapterExt : ServeOptions → ServeDetails :=
  fun _ => { port := 8100, externalAddresses := ["192.168.1.5"] }

/-- An environment with an `ionic1` project whose adapter reports an
external address. -/
def envExt : Env :=
  { project := { type := "ionic1", name := "proj" }
    ionic1Serve := adapterExt
    ionicAngularServe := adapterA8100
    discoveryStartFails := false }

/-- The details `adapterExt` reports. -/
def d0 : ServeDetails := { port := 8100, externalAddresses := ["192.168.1.5"] }

/-- An option mapping whose `auth` value is present but falsy. -/
def authFalseOpts : CommandLineOptions := fun k =>
  if k = "auth" then some (.bool false) else none

/-- An option mapping carrying `auth = "secret"`. -/
def authSecretOpts : CommandLineOptions := fun k =>
  if k = "auth" then some (.str "secret") else none

/-- String concatenation is associative (helper for substring
decompositions). -/
theorem strAppendAssoc (a b c : String) : a ++ b ++ c = a ++ (b ++ c) := by
  apply String.ext
  simp [String.data_append]

/-- Every string occurs in itself. -/
theorem containsStr_self (t : String) : ContainsStr t t :=
  ⟨"", "", by simp [String.empty_append, String.append_empty]⟩

/-- Occurrence is preserved by appending on the right. -/
theorem containsStr_append_right (s t u : String) (h : ContainsStr s t) :
    ContainsStr (s ++ u) t := by
  obtain ⟨a, b, rfl⟩ := h
  exact ⟨a, b ++ u, by simp [strAppendAssoc]⟩

/-- Occurrence is preserved by appending on the left. -/
theorem containsStr_append_left (s t u : String) (h : ContainsStr s t) :
    ContainsStr (u ++ s) t := by
  obtain ⟨a, b, rfl⟩ := h
  exact ⟨u ++ a, b, by simp [strAppendAssoc]⟩

/-- The string `opn` receives, written as the plain concatenation of its
four segments (the truthiness guards of serve.ts only drop segments that
are empty anyway, except for the platform query suffix). -/
theorem openOptionsJoined_eq (localAddress : String) (o : ServeOptions)
    (platform : Option String) :
    openOptionsJoined localAddress o platform =
      localAddress ++ (if o.lab then IONIC_LAB_URL else "") ++ o.browserOption.getD "" ++
        (match platform with
         | some p => if p = "" then "" else "?ionicplatform=" ++ p
         | none => "") := by
  unfold openOptionsJoined
  rcases hp : platform with _ | p <;> rcases hb : o.browserOption with _ | b <;>
    cases hl : o.lab
  all_goals try rcases eq_or_ne b "" with rfl | hbe
  all_goals try rcases eq_or_ne p "" with rfl | hpe
  all_goals
    simp_all [String.join, String.empty_append, String.append_empty, strAppendAssoc]

/-- C1: for a project type that is neither `ionic1` nor `ionic-angular`
(including `custom`), `serve` throws a fatal configuration error whose
message names the offending project type, and no backend adapter is
invoked. -/
theorem serve_unknown_type_fatal (env : Env) (inputs : List String)
    (options : CommandLineOptions)
    (h1 : env.project.type ≠ "ionic1") (h2 : env.project.type ≠ "ionic-angular") :
    (serve env inputs options).1 = Except.error (fatalServeMessage env.project.type) ∧
    ContainsStr (fatalServeMessage env.project.type) env.project.type ∧
    (serve env inputs options).2.adapterInvoked = none := by
  refine ⟨?_, ?_, ?_⟩
  · simp [serve, h1, h2]
  · refine ⟨"Cannot perform Ionic serve/watch for project type: ",
      ".\n" ++
      (if env.project.type = "custom" then
         "Since you're using the custom project type, this command won't work. The Ionic CLI doesn't know how to serve custom projects.\n\n"
       else "") ++
      "If you'd like the CLI to try to detect your project type, you can unset the type attribute in ionic.config.json.\n",
      ?_⟩
    simp [fatalServeMessage, strAppendAssoc]
  · simp [serve, h1, h2]

/-- C1 witness: a `custom` project fails fatally, names the type, and
invokes no adapter. -/
theorem serve_unknown_type_fatal_witness :
    (serve envCustom [] emptyOpts).1 = Except.error (fatalServeMessage "custom") ∧
    ContainsStr (fatalServeMessage "custom") "custom" ∧
    (serve envCustom [] emptyOpts).2.adapterInvoked = none :=
  serve_unknown_type_fatal envCustom [] emptyOpts (by decide) (by decide)

/-- C2: for a dispatchable project type, the discovery announcer is started
iff `devapp` is true and `iscordovaserve` is false; a failure of the
discovery start is swallowed, so the serve flow's outcome is unchanged and
still returns its `ServeDetails` successfully. -/
theorem serve_discovery_iff (env : Env) (inputs : List String)
    (options : CommandLineOptions)
    (h : env.project.type = "ionic1" ∨ env.project.type = "ionic-angular") :
    ((serve env inputs options).2.discoveryStarted.isSome = true ↔
      ((cliOptionsToServeOptions options).devapp = true ∧
        (cliOptionsToServeOptions options).iscordovaserve = false)) ∧
    serve { env with discoveryStartFails := true } inputs options =
      serve { env with discoveryStartFails := false } inputs options ∧
    ∃ d, (serve { env with discoveryStartFails := true } inputs options).1 = Except.ok d := by
  obtain h | h := h <;>
    refine ⟨?_, rfl, ?_⟩ <;>
  [skip; (exact ⟨_, by simp [serve, h]⟩); skip; (exact ⟨_, by simp [serve, h]⟩)] <;>
  · cases hi : (cliOptionsToServeOptions options).iscordovaserve <;>
      cases hd : (cliOptionsToServeOptions options).devapp <;>
        simp [serve, h, hi, hd]

/-- C2 witness: with an `ionic1` project and default options the announcer
is started, and a discovery-start failure leaves the successful outcome
unchanged. -/
theorem serve_discovery_iff_witness :
    (((serve env1 [] emptyOpts).2.discoveryStarted.isSome = true ↔
      ((cliOptionsToServeOptions emptyOpts).devapp = true ∧
        (cliOptionsToServeOptions emptyOpts).iscordovaserve = false)) ∧
    serve { env1 with discoveryStartFails := true } [] emptyOpts =
      serve { env1 with discoveryStartFails := false } [] emptyOpts ∧
    ∃ d, (serve { env1 with discoveryStartFails := true } [] emptyOpts).1 = Except.ok d) :=
  serve_discovery_iff env1 [] emptyOpts (Or.inl rfl)

/-- C8: whenever the discovery announcer is activated, the published
service has family `devapp`, instance name `{projectName}@{port}`,
advertised port equal to the serve port, and the fixed dev-app path set
before start. -/
theorem serve_discovery_descriptor (env : Env) (inputs : List String)
    (options : CommandLineOptions) (svc : Publisher)
    (h : (serve env inputs options).2.discoveryStarted = some svc) :
    svc.family = "devapp" ∧
    svc.instName = env.project.name ++ "@" ++ toString (cliOptionsToServeOptions options).port ∧
    svc.port = (cliOptionsToServeOptions options).port ∧
    svc.path = "/?devapp=true" := by
  by_cases h1 : env.project.type = "ionic1"
  · cases hi : (cliOptionsToServeOptions options).iscordovaserve <;>
      cases hd : (cliOptionsToServeOptions options).devapp <;>
      simp [serve, h1, hi, hd] at h
    obtain rfl := h
    exact ⟨rfl, rfl, rfl, rfl⟩
  · by_cases h2 : env.project.type = "ionic-angular"
    · cases hi : (cliOptionsToServeOptions options).iscordovaserve <;>
        cases hd : (cliOptionsToServeOptions options).devapp <;>
        simp [serve, h1, h2, hi, hd] at h
      obtain rfl := h
      exact ⟨rfl, rfl, rfl, rfl⟩
    · simp [serve, h1, h2] at h

/-- C8 witness: in `env1` with default options the published descriptor is
`devapp`/`proj@8100`/port 8100 with the dev-app path. -/
theorem serve_discovery_descriptor_witness :
    svc0.family = "devapp" ∧
    svc0.instName =
      env1.project.name ++ "@" ++ toString (cliOptionsToServeOptions emptyOpts).port ∧
    svc0.port = (cliOptionsToServeOptions emptyOpts).port ∧
    svc0.path = "/?devapp=true" :=
  serve_discovery_descriptor env1 [] emptyOpts svc0 (by decide)

/-- C9: a successful serve session returns exactly the `ServeDetails`
produced by the invoked backend adapter, unmodified. -/
theorem serve_returns_adapter_details (env : Env) (inputs : List String)
    (options : CommandLineOptions) (d : ServeDetails)
    (h : (serve env inputs options).1 = Except.ok d) :
    (env.project.type = "ionic1" ∧
      d = env.ionic1Serve (cliOptionsToServeOptions options)) ∨
    (env.project.type = "ionic-angular" ∧
      d = env.ionicAngularServe
        { platform := inputs.head?
          target :=
            if (cliOptionsToServeOptions options).iscordovaserve then some "cordova"
            else none
          base := cliOptionsToServeOptions options }) := by
  by_cases h1 : env.project.type = "ionic1"
  · left
    refine ⟨h1, ?_⟩
    simp [serve, h1] at h
    exact h.symm
  · by_cases h2 : env.project.type = "ionic-angular"
    · right
      refine ⟨h2, ?_⟩
      simp [serve, h1, h2] at h
      exact h.symm
    · simp [serve, h1, h2] at h

/-- C9 witness: in `env1` the returned details are the ionic1 adapter's
value. -/
theorem serve_returns_adapter_details_witness :
    (env1.project.type = "ionic1" ∧
      ({ port := 8100, externalAddresses := [] } : ServeDetails) =
        env1.ionic1Serve (cliOptionsToServeOptions emptyOpts)) ∨
    (env1.project.type = "ionic-angular" ∧
      ({ port := 8100, externalAddresses := [] } : ServeDetails) =
        env1.ionicAngularServe
          { platform := ([] : List String).head?
            target :=
              if (cliOptionsToServeOptions emptyOpts).iscordovaserve then some "cordova"
              else none
            base := cliOptionsToServeOptions emptyOpts }) :=
  serve_returns_adapter_details env1 [] emptyOpts
    { port := 8100, externalAddresses := [] } rfl

/-- C3: normalizing the empty option mapping yields the bind-all address,
the default server, live-reload and notification ports, livereload and
proxy and devapp true, all default-false flags false, and basicAuth,
browser, browserOption and env absent. -/
theorem cliOptionsToServeOptions_empty :
    cliOptionsToServeOptions emptyOpts =
      { address := BIND_ALL_ADDRESS
        port := DEFAULT_SERVER_PORT
        livereloadPort := DEFAULT_LIVERELOAD_PORT
        notificationPort := DEFAULT_DEV_LOGGER_PORT
        consolelogs := false
        serverlogs := false
        livereload := true
        proxy := true
        lab := false
        «open» := false
        browser := none
        browserOption := none
        basicAuth := none
        env := none
        devapp := true
        externalAddressRequired := false
        iscordovaserve := false } := rfl

/-- C6: option normalization is total (it is a Lean function) and every
boolean field of its result is a concrete `true` or `false` for every raw
option mapping. -/
theorem cliOptionsToServeOptions_booleans_concrete (options : CommandLineOptions) :
    ((cliOptionsToServeOptions options).consolelogs = true ∨
      (cliOptionsToServeOptions options).consolelogs = false) ∧
    ((cliOptionsToServeOptions options).serverlogs = true ∨
      (cliOptionsToServeOptions options).serverlogs = false) ∧
    ((cliOptionsToServeOptions options).livereload = true ∨
      (cliOptionsToServeOptions options).livereload = false) ∧
    ((cliOptionsToServeOptions options).proxy = true ∨
      (cliOptionsToServeOptions options).proxy = false) ∧
    ((cliOptionsToServeOptions options).lab = true ∨
      (cliOptionsToServeOptions options).lab = false) ∧
    ((cliOptionsToServeOptions options).«open» = true ∨
      (cliOptionsToServeOptions options).«open» = false) ∧
    ((cliOptionsToServeOptions options).devapp = true ∨
      (cliOptionsToServeOptions options).devapp = false) ∧
    ((cliOptionsToServeOptions options).externalAddressRequired = true ∨
      (cliOptionsToServeOptions options).externalAddressRequired = false) ∧
    ((cliOptionsToServeOptions options).iscordovaserve = true ∨
      (cliOptionsToServeOptions options).iscordovaserve = false) :=
  ⟨Bool.eq_false_or_eq_true _, Bool.eq_false_or_eq_true _,
   Bool.eq_false_or_eq_true _, Bool.eq_false_or_eq_true _,
   Bool.eq_false_or_eq_true _, Bool.eq_false_or_eq_true _,
   Bool.eq_false_or_eq_true _, Bool.eq_false_or_eq_true _,
   Bool.eq_false_or_eq_true _⟩

/-- C7 counterexample: with `auth` present but falsy (`auth = false`),
normalization leaves `basicAuth` absent, not the claimed credential
pair. -/
theorem cliOptions_auth_present_falsy :
    authFalseOpts "auth" = some (CLIValue.bool false) ∧
    (cliOptionsToServeOptions authFalseOpts).basicAuth = none ∧
    (cliOptionsToServeOptions authFalseOpts).basicAuth ≠
      some ("ionic", (CLIValue.bool false).jsString) :=
  ⟨rfl, rfl, by decide⟩

/-- C7 (amended): a truthy `auth` value yields
`basicAuth = ("ionic", String(auth))`; an absent or falsy `auth` value
leaves `basicAuth` absent. -/
theorem cliOptions_basicAuth_truthy (options : CommandLineOptions) :
    (∀ v, options "auth" = some v → v.truthy = true →
      (cliOptionsToServeOptions options).basicAuth = some ("ionic", v.jsString)) ∧
    (∀ v, options "auth" = some v → v.truthy = false →
      (cliOptionsToServeOptions options).basicAuth = none) ∧
    (options "auth" = none → (cliOptionsToServeOptions options).basicAuth = none) := by
  refine ⟨fun v hv htr => ?_, fun v hv htr => ?_, fun hv => ?_⟩
  · simp [cliOptionsToServeOptions, hv, htr]
  · simp [cliOptionsToServeOptions, hv, htr]
  · simp [cliOptionsToServeOptions, hv]

/-- C7 witness: `auth = "secret"` yields the pair `("ionic", "secret")`. -/
theorem cliOptions_basicAuth_truthy_witness :
    (cliOptionsToServeOptions authSecretOpts).basicAuth = some ("ionic", "secret") :=
  (cliOptions_basicAuth_truthy authSecretOpts).1 (CLIValue.str "secret") rfl rfl

/-- C4 counterexample: with the empty string given as the platform input
(so a platform input was given), `serve` opens the URL without the
`?ionicplatform=` suffix the claim requires. -/
theorem serve_open_url_counterexample :
    (serve env1 [""] openLabOpts).2.browserOpen =
      some { url := "http://localhost:8100" ++ IONIC_LAB_URL ++ "--incognito",
             app := none, wait := false } ∧
    ("http://localhost:8100" ++ IONIC_LAB_URL ++ "--incognito" : String) ≠
      "http://localhost:8100" ++ IONIC_LAB_URL ++ "--incognito" ++
        ("?ionicplatform=" ++ "") := by
  exact ⟨by decide, by decide⟩

/-- C4 (amended): when `open` is true and the project type's backend does
not manage browser-opening itself (`ionic1`), the browser launcher is
invoked (at most once, recorded in the trace) with wait-for-exit disabled
and with exactly the no-separator concatenation of the local URL, the lab
URL constant if `lab` is set, the `browserOption` string if set, and
`?ionicplatform=` followed by the platform name if a non-empty platform
input was given. -/
theorem serve_open_url (env : Env) (inputs : List String)
    (options : CommandLineOptions)
    (h1 : env.project.type = "ionic1")
    (h2 : (cliOptionsToServeOptions options).«open» = true) :
    (serve env inputs options).2.browserOpen =
      some { url :=
               ("http://localhost:" ++
                   toString (env.ionic1Serve (cliOptionsToServeOptions options)).port) ++
                 (if (cliOptionsToServeOptions options).lab then IONIC_LAB_URL else "") ++
                 (cliOptionsToServeOptions options).browserOption.getD "" ++
                 (match inputs.head? with
                  | some p => if p = "" then "" else "?ionicplatform=" ++ p
                  | none => ""),
             app := (cliOptionsToServeOptions options).browser,
             wait := false } := by
  have hx : ("ionic1" : String) ≠ "ionic-angular" := by decide
  simp [serve, h1, h2, hx, openOptionsJoined_eq]

/-- C4 witness: local URL, lab suffix, `--incognito` and
`?ionicplatform=ios` concatenated with no separators. -/
theorem serve_open_url_witness :
    (serve env1 ["ios"] openLabOpts).2.browserOpen =
      some { url := "http://localhost:8100/ionic-lab--incognito?ionicplatform=ios",
             app := none, wait := false } :=
  serve_open_url env1 ["ios"] openLabOpts rfl rfl

/-- C5: the successful serve flow reports exactly `reportMessage`, which
contains the local URL; contains the comma-joined, order-preserving
External line when external addresses exist; omits the External line when
there are none; and reveals the basic-auth credential pair when set. -/
theorem serve_report_spec (env : Env) (inputs : List String)
    (options : CommandLineOptions) (d : ServeDetails) (tr : ServeTrace)
    (h : serve env inputs options = (Except.ok d, tr)) :
    tr.reportText = some (reportMessage d (cliOptionsToServeOptions options)) ∧
    ContainsStr (reportMessage d (cliOptionsToServeOptions options))
      ("http://localhost:" ++ toString d.port) ∧
    (d.externalAddresses ≠ [] →
      ContainsStr (reportMessage d (cliOptionsToServeOptions options))
        ("External: " ++
          String.intercalate ", "
            (d.externalAddresses.map (fmtExternalAddress d.port)) ++ "\n")) ∧
    (d.externalAddresses = [] →
      reportMessage d (cliOptionsToServeOptions options) =
        "Development server running!\n" ++
        ("Local: " ++ ("http://localhost:" ++ toString d.port) ++ "\n") ++
        (match (cliOptionsToServeOptions options).basicAuth with
         | some auth => "Basic Auth: " ++ auth.1 ++ " / " ++ auth.2
         | none => "")) ∧
    (∀ u p, (cliOptionsToServeOptions options).basicAuth = some (u, p) →
      ContainsStr (reportMessage d (cliOptionsToServeOptions options))
        ("Basic Auth: " ++ u ++ " / " ++ p)) := by
  refine ⟨?_, ?_, ?_, ?_, ?_⟩
  · by_cases h1 : env.project.type = "ionic1"
    · simp [serve, h1] at h
      obtain ⟨hd, htr⟩ := h
      subst hd
      subst htr
      rfl
    · by_cases h2 : env.project.type = "ionic-angular"
      · simp [serve, h1, h2] at h
        obtain ⟨hd, htr⟩ := h
        subst hd
        subst htr
        rfl
      · simp [serve, h1, h2] at h
  · exact containsStr_append_right _ _ _ (containsStr_append_right _ _ _
      (containsStr_append_left _ _ _ (containsStr_append_right _ _ _
        (containsStr_append_left _ _ _ (containsStr_self _)))))
  · intro hne
    have hpos : 0 < d.externalAddresses.length := List.length_pos.mpr hne
    unfold reportMessage
    rw [if_pos hpos]
    exact containsStr_append_right _ _ _
      (containsStr_append_left _ _ _ (containsStr_self _))
  · intro he
    unfold reportMessage
    rw [he]
    simp [String.append_empty]
  · intro u p hauth
    unfold reportMessage
    rw [hauth]
    exact containsStr_append_left _ _ _ (containsStr_self _)

/-- C5 witness: a backend reporting port 8100 and `192.168.1.5` yields a
report containing both URLs and the credential pair. -/
theorem serve_report_spec_witness :
    ContainsStr (reportMessage d0 (cliOptionsToServeOptions authSecretOpts))
      ("http://localhost:" ++ toString d0.port) ∧
    ContainsStr (reportMessage d0 (cliOptionsToServeOptions authSecretOpts))
      ("External: " ++
        String.intercalate ", "
          (d0.externalAddresses.map (fmtExternalAddress d0.port)) ++ "\n") ∧
    ContainsStr (reportMessage d0 (cliOptionsToServeOptions authSecretOpts))
      ("Basic Auth: " ++ "ionic" ++ " / " ++ "secret") := by
  obtain ⟨-, h2, h3, -, h5⟩ :=
    serve_report_spec envExt [] authSecretOpts d0
      ((serve envExt [] authSecretOpts).2) rfl
  exact ⟨h2, h3 (by decide), h5 "ionic" "secret" (by decide)⟩

/-- C10: `isProjectNameValid` returns true exactly when the name is not the
single-dot string; in particular the empty string, `..` and names with path
separators are accepted. -/
theorem isProjectNameValid_iff (name : String) :
    (isProjectNameValid name = true ↔ name ≠ ".") ∧
    isProjectNameValid "" = true ∧
    isProjectNameValid ".." = true ∧
    isProjectNameValid "a/b" = true := by
  refine ⟨?_, by decide, by decide, by decide⟩
  simp [isProjectNameValid]

/-- C10 witness: a concrete non-dot name is accepted. -/
theorem isProjectNameValid_iff_witness : isProjectNameValid "foo" = true :=
  ((isProjectNameValid_iff "foo").1).mpr (by decide)

end IonicCLI
